import Mathlib

/-!
# Verification of the vtschooldata Python wrapper specification

The repository `almartin82/vtschooldata` ships a thin Python package
`pyvtschooldata` whose sources under `src/` consist of the package
`__init__.py` and a smoke-test file.  The `core` submodule that
`__init__.py` imports from is not part of the shipped sources, so the
data-access layer (`fetch_enr`, `fetch_enr_multi`, `tidy_enr`,
`get_available_years`) is modelled here from the specification's design
sections (Source Adapter, Tidy Transformer, Multi-Year Aggregator, Year
Enumerator), while the import surface, the test suite and the line counts
are embedded directly from the two source files.
-/

namespace VtSchoolData

/-- Modelled from the spec: a selectable dataset flavor ("variant"), one of a
fixed enumerated set (e.g. total enrollment vs. by-demographic breakdown). -/
inductive Variant where
  | total
  | byDemographic
deriving DecidableEq

/-- Modelled from the spec: one raw provider row — wide format, one column per
demographic category, a null (`none`) meaning a missing count.  The schema is
owned by the provider. -/
structure RawRow where
  year : Nat
  school : String
  grade : Nat
  cells : List (String × Option Int)
deriving DecidableEq

/-- Modelled from the spec: one row representing
(year, school identifier, grade level, demographic category, enrollment count). -/
structure EnrollmentRecord where
  year : Nat
  school : String
  grade : Nat
  category : String
  count : Int
deriving DecidableEq

/-- Modelled from the spec: the error taxonomy of §7 — `DataUnavailableError`
(requested year not published), `ProviderError` (underlying provider call
failed), `SchemaError` (raw data did not match the expected shape during
tidying), `NoDataError` (aggregate fetch yielded zero usable years). -/
inductive FetchError where
  | DataUnavailableError
  | ProviderError
  | SchemaError
  | NoDataError
deriving DecidableEq

/-- Modelled from the spec: the external data provider, an opaque service
exposing "fetch enrollment table for year X" (`table`, `none` = the underlying
call fails) and "list available years" (`years`) operations. -/
structure Provider where
  years : List Nat
  table : Nat → Variant → Option (List RawRow)

/-- Modelled from the spec (§4.1 Source Adapter): given a single year and a
variant selector, retrieve the raw table for that year from the provider;
`DataUnavailableError` when the provider has no data for the requested year,
`ProviderError` when the underlying call fails for any other reason. -/
def fetch_raw (p : Provider) (year : Nat) (v : Variant) :
    Except FetchError (List RawRow) :=
  if year ∈ p.years then
    match p.table year v with
    | some rows => .ok rows
    | none => .error .ProviderError
  else .error .DataUnavailableError

/-- Modelled from the spec (§4.2): pivot the wide demographic columns of one
raw row into repeated (category, count) records, dropping null counts and
signalling `SchemaError` when a count cannot be coerced to a non-negative
integer. -/
def pivotCells (yr : Nat) (school : String) (grade : Nat) :
    List (String × Option Int) → Except FetchError (List EnrollmentRecord)
  | [] => .ok []
  | (_, none) :: rest => pivotCells yr school grade rest
  | (cat, some c) :: rest =>
    if c < 0 then .error .SchemaError
    else
      match pivotCells yr school grade rest with
      | .ok recs => .ok (⟨yr, school, grade, cat, c⟩ :: recs)
      | .error e => .error e

/-- Modelled from the spec (§4.2): pivot every raw row, concatenating the
per-row records in input order. -/
def tidyRows : List RawRow → Except FetchError (List EnrollmentRecord)
  | [] => .ok []
  | r :: rest =>
    match pivotCells r.year r.school r.grade r.cells with
    | .error e => .error e
    | .ok a =>
      match tidyRows rest with
      | .error e => .error e
      | .ok b => .ok (a ++ b)

/-- The sort key of a tidy record: school, then grade, then category,
lexicographically. -/
def key (e : EnrollmentRecord) : String ×ₗ (Nat ×ₗ String) :=
  toLex (e.school, toLex (e.grade, e.category))

/-- Record order used for the deterministic output ordering of `tidy_enr`:
by school, then grade, then category. -/
def keyLE (a b : EnrollmentRecord) : Prop :=
  key a ≤ key b

instance : DecidableRel keyLE :=
  fun a b => inferInstanceAs (Decidable (key a ≤ key b))

instance : IsTotal EnrollmentRecord keyLE :=
  ⟨fun a b => le_total (key a) (key b)⟩

instance : IsTrans EnrollmentRecord keyLE :=
  ⟨fun _ _ _ h₁ h₂ => le_trans h₁ h₂⟩

/-- Modelled from the spec (§4.2 Tidy Transformer): convert raw provider rows
into the canonical long-format `EnrollmentRecord` sequence, sorted by school
then grade then category (stable, deterministic ordering); purely functional. -/
def tidy_enr (rows : List RawRow) : Except FetchError (List EnrollmentRecord) :=
  match tidyRows rows with
  | .error e => .error e
  | .ok recs => .ok (recs.insertionSort keyLE)

/-- Modelled from the spec (§4.1 + §4.2, control flow of §2): fetch the raw
table for one year through the Source Adapter, then tidy it; a year whose tidy
result carries no records counts as the provider having no data for it
(`DataUnavailableError`), so a successful fetch is never empty. -/
def fetch_enr (p : Provider) (year : Nat) (v : Variant) :
    Except FetchError (List EnrollmentRecord) :=
  match fetch_raw p year v with
  | .error e => .error e
  | .ok rows =>
    match tidy_enr rows with
    | .error e => .error e
    | .ok recs => if recs.isEmpty then .error .DataUnavailableError else .ok recs

/-- Modelled from the spec (§4.4 Year Enumerator): the ordered set of years the
provider currently publishes, queried fresh from the provider. -/
def get_available_years (p : Provider) : List Nat :=
  p.years.dedup.insertionSort (· ≤ ·)

/-- Modelled from the spec (§3 FetchResult): ordered sequence of
`EnrollmentRecord` plus metadata — years successfully retrieved, years failed
with reasons. -/
structure FetchResult where
  records : List EnrollmentRecord
  okYears : List Nat
  failedYears : List (Nat × FetchError)
deriving DecidableEq

/-- Modelled from the spec (§4.3): fetch-and-tidy each requested year
independently, in ascending year order regardless of request order. -/
def yearResults (p : Provider) (years : List Nat) (v : Variant) :
    List (Nat × Except FetchError (List EnrollmentRecord)) :=
  (years.insertionSort (· ≤ ·)).map (fun y => (y, fetch_enr p y v))

/-- Years whose fetch succeeded, in ascending order. -/
def okYearsOf (rs : List (Nat × Except FetchError (List EnrollmentRecord))) :
    List Nat :=
  rs.filterMap (fun x => match x.2 with | .ok _ => some x.1 | .error _ => none)

/-- Years whose fetch failed, each with its reason. -/
def failedYearsOf (rs : List (Nat × Except FetchError (List EnrollmentRecord))) :
    List (Nat × FetchError) :=
  rs.filterMap (fun x => match x.2 with | .error e => some (x.1, e) | .ok _ => none)

/-- Concatenation of the successful years' records, in ascending year order. -/
def recordsOf (rs : List (Nat × Except FetchError (List EnrollmentRecord))) :
    List EnrollmentRecord :=
  (rs.filterMap (fun x => match x.2 with | .ok recs => some recs | .error _ => none)).flatten

/-- Modelled from the spec (§4.3 Multi-Year Aggregator): fetch and tidy each
requested year independently; a failure for one year does not abort the others
— failed years are recorded in the result metadata; if ALL requested years fail
the aggregate is a `NoDataError` rather than an empty success. -/
def fetch_enr_multi (p : Provider) (years : List Nat) (v : Variant) :
    Except FetchError FetchResult :=
  let rs := yearResults p years v
  if (okYearsOf rs).isEmpty && !years.isEmpty then .error .NoDataError
  else .ok ⟨recordsOf rs, okYearsOf rs, failedYearsOf rs⟩

/-- The (year, school, grade) identity of a raw row. -/
def rowTriple (r : RawRow) : Nat × String × Nat :=
  (r.year, r.school, r.grade)

/-- The (year, school, grade, category) key of a tidy record — the unique key
of the spec's data-model invariant. -/
def recKey (e : EnrollmentRecord) : Nat × String × Nat × String :=
  (e.year, e.school, e.grade, e.category)

/-- Modelled from the spec: well-formed raw provider data for one fetch — no
two rows share a (year, school, grade) identity, and no row repeats a
demographic column. -/
def RowsWF (rows : List RawRow) : Prop :=
  (rows.map rowTriple).Nodup ∧ ∀ r ∈ rows, (r.cells.map Prod.fst).Nodup

instance (rows : List RawRow) : Decidable (RowsWF rows) :=
  inferInstanceAs (Decidable ((rows.map rowTriple).Nodup ∧
    ∀ r ∈ rows, (r.cells.map Prod.fst).Nodup))

/-! ## Embedding of the shipped source files

The two files under `src/` are embedded verbatim: the package
`pyvtschooldata/__init__.py` and the test file
`tests/test_pyvtschooldata.py`. -/

/-- The import surface of `pyvtschooldata/__init__.py`: the submodule the
from-import pulls from, the names it imports, the version string and the
`__all__` list. -/
structure InitModule where
  importedModule : String
  importedNames : List String
  version : String
  allNames : List String
deriving DecidableEq

/-- Embedded from `src/pyvtschooldata/pyvtschooldata/__init__.py` (lines 8-16):
`from .core import (fetch_enr, fetch_enr_multi, tidy_enr, get_available_years)`,
`__version__ = "0.1.0"` and the `__all__` list. -/
def pyInit : InitModule :=
  { importedModule := "core"
    importedNames := ["fetch_enr", "fetch_enr_multi", "tidy_enr", "get_available_years"]
    version := "0.1.0"
    allNames := ["fetch_enr", "fetch_enr_multi", "tidy_enr", "get_available_years"] }

/-- The kinds of assertion occurring in the test file, plus the kind that would
exercise data logic (calling a package function on data and checking its
output), which no shipped test performs. -/
inductive TestAssertion where
  | importSucceeds (pkg : String)
  | isNotNone (expr : String)
  | hasAttr (pkg attr : String)
  | isCallable (pkg attr : String)
  | isInstanceStr (pkg attr : String)
  | callReturns (pkg fn : String) (args result : String)
deriving DecidableEq

/-- A single test function: its name and the assertions it makes. -/
structure TestCase where
  name : String
  asserts : List TestAssertion
deriving DecidableEq

/-- Embedded from `src/tests/test_pyvtschooldata.py`: the four test functions
and every assert statement each one makes. -/
def testSuite : List TestCase :=
  [ { name := "test_import_package"
      asserts := [.importSucceeds "pyvtschooldata", .isNotNone "pyvtschooldata"] }
  , { name := "test_has_fetch_enr"
      asserts := [.importSucceeds "pyvtschooldata",
                  .hasAttr "pyvtschooldata" "fetch_enr",
                  .isCallable "pyvtschooldata" "fetch_enr"] }
  , { name := "test_has_get_available_years"
      asserts := [.importSucceeds "pyvtschooldata",
                  .hasAttr "pyvtschooldata" "get_available_years",
                  .isCallable "pyvtschooldata" "get_available_years"] }
  , { name := "test_has_version"
      asserts := [.importSucceeds "pyvtschooldata",
                  .hasAttr "pyvtschooldata" "__version__",
                  .isInstanceStr "pyvtschooldata" "__version__"] } ]

/-- An assertion is structural when it only checks import success, attribute
presence, callability, a version-string type, or non-None-ness — as opposed to
invoking a data-fetching or transformation function and checking its output. -/
def TestAssertion.isStructural : TestAssertion → Bool
  | .importSucceeds _ => true
  | .isNotNone _ => true
  | .hasAttr _ _ => true
  | .isCallable _ _ => true
  | .isInstanceStr _ _ => true
  | .callReturns _ _ _ _ => false

/-- Embedded from `src/pyvtschooldata/pyvtschooldata/__init__.py`: the file,
line by line (17 lines; the file ends with a newline after a final blank
line). -/
def initLines : List String :=
  [ "\"\"\""
  , "pyvtschooldata - Python wrapper for Vermont school enrollment data."
  , ""
  , "Thin rpy2 wrapper around the vtschooldata R package."
  , "Returns pandas DataFrames."
  , "\"\"\""
  , ""
  , "from .core import ("
  , "    fetch_enr,"
  , "    fetch_enr_multi,"
  , "    tidy_enr,"
  , "    get_available_years,"
  , ")"
  , ""
  , "__version__ = \"0.1.0\""
  , "__all__ = [\"fetch_enr\", \"fetch_enr_multi\", \"tidy_enr\", \"get_available_years\"]"
  , "" ]

/-- Embedded from `src/tests/test_pyvtschooldata.py`: the file, line by line
(35 lines; the last line carries no trailing newline). -/
def testLines : List String :=
  [ "\"\"\""
  , "Tests for pyvtschooldata Python wrapper."
  , ""
  , "Minimal smoke tests - the actual data logic is tested by R testthat."
  , "These just verify the Python wrapper imports and exposes expected functions."
  , "\"\"\""
  , ""
  , "import pytest"
  , ""
  , ""
  , "def test_import_package():"
  , "    \"\"\"Package imports successfully.\"\"\""
  , "    import pyvtschooldata"
  , "    assert pyvtschooldata is not None"
  , ""
  , ""
  , "def test_has_fetch_enr():"
  , "    \"\"\"fetch_enr function is available.\"\"\""
  , "    import pyvtschooldata"
  , "    assert hasattr(pyvtschooldata, \x27fetch_enr\x27)"
  , "    assert callable(pyvtschooldata.fetch_enr)"
  , ""
  , ""
  , "def test_has_get_available_years():"
  , "    \"\"\"get_available_years function is available.\"\"\""
  , "    import pyvtschooldata"
  , "    assert hasattr(pyvtschooldata, \x27get_available_years\x27)"
  , "    assert callable(pyvtschooldata.get_available_years)"
  , ""
  , ""
  , "def test_has_version():"
  , "    \"\"\"Package has a version string.\"\"\""
  , "    import pyvtschooldata"
  , "    assert hasattr(pyvtschooldata, \x27__version__\x27)"
  , "    assert isinstance(pyvtschooldata.__version__, str)" ]

/-! ## Python import semantics for the package

`import pyvtschooldata` executes `__init__.py`, whose first statement is
`from .core import (...)`; that statement succeeds only when the submodule
`pyvtschooldata.core` can be resolved and defines every imported name, and
raises `ImportError` otherwise. -/

/-- Outcome of importing the package. -/
inductive ImportOutcome where
  | ok
  | importError (missing : String)
deriving DecidableEq

/-- A module environment: each available module path with the names it
defines. -/
def resolveModule (env : List (String × List String)) (name : String) :
    Option (List String) :=
  (env.find? (fun x => x.1 == name)).map Prod.snd

/-- Run a `from <module> import (<names>)` statement against a module
environment. -/
def runFromImport (env : List (String × List String)) (module : String)
    (names : List String) : ImportOutcome :=
  match resolveModule env module with
  | none => .importError module
  | some defs =>
    if names.all (fun n => defs.contains n) then .ok else .importError module

/-- Importing the package runs the from-import of `__init__.py` against the
submodule `pyvtschooldata.core`. -/
def importPackage (env : List (String × List String)) : ImportOutcome :=
  runFromImport env "pyvtschooldata.core" pyInit.importedNames

/-- The module environment the repository's own sources provide: the package
`__init__` and the test module; no `core` submodule is among the source
files. -/
def repoEnv : List (String × List String) :=
  [ ("pyvtschooldata", ["__version__", "__all__"])
  , ("tests.test_pyvtschooldata",
     ["test_import_package", "test_has_fetch_enr",
      "test_has_get_available_years", "test_has_version"]) ]

/-! ## Concrete sample data used by witnesses -/

/-- A one-cell raw row for a given year and count. -/
def sampleRow (yr : Nat) (cnt : Int) : RawRow :=
  ⟨yr, "A", 1, [("total", some cnt)]⟩

/-- The tidy record produced from `sampleRow`. -/
def sampleRec (yr : Nat) (cnt : Int) : EnrollmentRecord :=
  ⟨yr, "A", 1, "total", cnt⟩

/-- A provider publishing the years 2020 and 2021, one row each. -/
def pDemo : Provider :=
  { years := [2020, 2021]
    table := fun y _ =>
      if y = 2020 then some [sampleRow 2020 5]
      else if y = 2021 then some [sampleRow 2021 7]
      else none }

/-- A provider publishing only 2020, so that 2021 fails with
`DataUnavailableError`. -/
def pMixed : Provider :=
  { years := [2020]
    table := fun y _ => if y = 2020 then some [sampleRow 2020 5] else none }

/-- `repoEnv` extended with the `core` submodule the package expects. -/
def coreEnv : List (String × List String) :=
  ("pyvtschooldata.core", pyInit.importedNames) :: repoEnv

/-! ## Claims about the shipped source files -/

/-- C1: the package's inbound call surface is exactly `fetch_enr`,
`fetch_enr_multi`, `tidy_enr` and `get_available_years`: each is imported in
`__init__.py` and listed in `__all__`, and `__all__` holds no other name. -/
theorem claim_C1_export_surface :
    pyInit.allNames =
      ["fetch_enr", "fetch_enr_multi", "tidy_enr", "get_available_years"] ∧
    pyInit.importedNames = pyInit.allNames :=
  ⟨rfl, rfl⟩

/-- C2: every assertion of every test in the suite is structural (import
success, attribute presence, callability, version-string type, non-None-ness);
no test calls a data-fetching or transformation function. -/
theorem claim_C2_tests_structural :
    (testSuite.all (fun t => t.asserts.all TestAssertion.isStructural)) = true ∧
    testSuite.map TestCase.name =
      ["test_import_package", "test_has_fetch_enr",
       "test_has_get_available_years", "test_has_version"] :=
  ⟨rfl, rfl⟩

/-- C3: the two source files total exactly 52 lines: 17 in the package
`__init__.py` and 35 in the test file. -/
theorem claim_C3_fifty_two_lines :
    initLines.length + testLines.length = 52 ∧
    initLines.length = 17 ∧ testLines.length = 35 :=
  ⟨rfl, rfl, rfl⟩

/-- C10: importing the package runs `from .core import (...)`; it succeeds
only when the submodule `pyvtschooldata.core` resolves and defines all four
imported names, and against the repository's own sources — which provide no
`core` module — it raises `ImportError`. -/
theorem claim_C10_import_requires_core :
    importPackage repoEnv = .importError "pyvtschooldata.core" ∧
    resolveModule repoEnv "pyvtschooldata.core" = none ∧
    ∀ env, importPackage env = .ok →
      ∃ defs, resolveModule env "pyvtschooldata.core" = some defs ∧
        "fetch_enr" ∈ defs ∧ "fetch_enr_multi" ∈ defs ∧
        "tidy_enr" ∈ defs ∧ "get_available_years" ∈ defs := by
  refine ⟨rfl, rfl, ?_⟩
  intro env h
  unfold importPackage runFromImport at h
  cases hres : resolveModule env "pyvtschooldata.core" with
  | none => rw [hres] at h; exact absurd h (by simp)
  | some defs =>
    rw [hres] at h
    replace h :
        (if (pyInit.importedNames.all fun n => defs.contains n) = true
          then ImportOutcome.ok
          else ImportOutcome.importError "pyvtschooldata.core") =
          ImportOutcome.ok := h
    refine ⟨defs, rfl, ?_⟩
    by_cases hall : (pyInit.importedNames.all fun n => defs.contains n) = true
    · simp only [pyInit, List.all_cons, List.all_nil, Bool.and_eq_true,
        List.elem_eq_mem, decide_eq_true_eq] at hall
      exact ⟨hall.1, hall.2.1, hall.2.2.1, hall.2.2.2.1⟩
    · rw [if_neg hall] at h
      exact absurd h (by simp)

/-- Witness for C10: in an environment that does provide
`pyvtschooldata.core` with the four names, the import succeeds and the
theorem recovers the defining module. -/
theorem claim_C10_witness :
    ∃ defs, resolveModule coreEnv "pyvtschooldata.core" = some defs ∧
      "fetch_enr" ∈ defs ∧ "fetch_enr_multi" ∈ defs ∧
      "tidy_enr" ∈ defs ∧ "get_available_years" ∈ defs :=
  claim_C10_import_requires_core.2.2 coreEnv (by rfl)

/-! ## Claims about the modelled data-access layer -/

/-- C7: `get_available_years` always returns a strictly ascending sequence,
hence one with no duplicate years. -/
theorem claim_C7_available_years_strictly_ascending :
    ∀ p : Provider,
      (get_available_years p).Sorted (· < ·) ∧ (get_available_years p).Nodup := by
  intro p
  have hs : (get_available_years p).Sorted (· ≤ ·) :=
    List.sorted_insertionSort _ _
  have hnd : (get_available_years p).Nodup :=
    ((List.perm_insertionSort (· ≤ ·) p.years.dedup).nodup_iff).mpr
      (List.nodup_dedup p.years)
  exact ⟨hs.lt_of_le hnd, hnd⟩

/-- C8: `fetch_enr` is idempotent with respect to an unchanged provider: the
provider state is an explicit argument of the model, and two calls on the same
provider, year and variant are the same pure computation, hence yield identical
record sequences. -/
theorem claim_C8_fetch_idempotent :
    ∀ (p : Provider) (y : Nat) (v : Variant),
      fetch_enr p y v = fetch_enr p y v :=
  fun _ _ _ => rfl

/-- C6: `tidy_enr` is a pure deterministic function — the same raw input gives
the same output — and every successful output is sorted by school, then grade,
then category (the order `keyLE`). -/
theorem claim_C6_tidy_pure_deterministic_sorted :
    ∀ rows : List RawRow,
      tidy_enr rows = tidy_enr rows ∧
      ∀ out, tidy_enr rows = .ok out → out.Sorted keyLE := by
  intro rows
  refine ⟨rfl, ?_⟩
  intro out h
  unfold tidy_enr at h
  cases htr : tidyRows rows with
  | error e => rw [htr] at h; exact absurd h (by simp)
  | ok recs =>
    rw [htr] at h
    obtain rfl : recs.insertionSort keyLE = out := by simpa using h
    exact List.sorted_insertionSort keyLE recs

/-- Witness for C6 at a concrete raw input. -/
theorem claim_C6_witness :
    tidy_enr [sampleRow 2020 5] = tidy_enr [sampleRow 2020 5] ∧
    List.Sorted keyLE [sampleRec 2020 5] :=
  ⟨(claim_C6_tidy_pure_deterministic_sorted [sampleRow 2020 5]).1,
   (claim_C6_tidy_pure_deterministic_sorted [sampleRow 2020 5]).2
     [sampleRec 2020 5] rfl⟩

/-- C4: for any two valid (successfully fetching) years, `fetch_enr_multi`
returns both years' records concatenated in ascending year order, and the
request order does not affect the result. -/
theorem claim_C4_multi_ascending_order_free :
    ∀ (p : Provider) (v : Variant) (y₁ y₂ : Nat)
      (r₁ r₂ : List EnrollmentRecord),
      y₁ < y₂ →
      fetch_enr p y₁ v = .ok r₁ → fetch_enr p y₂ v = .ok r₂ →
      fetch_enr_multi p [y₁, y₂] v =
        .ok { records := r₁ ++ r₂, okYears := [y₁, y₂], failedYears := [] } ∧
      fetch_enr_multi p [y₂, y₁] v = fetch_enr_multi p [y₁, y₂] v := by
  intro p v y₁ y₂ r₁ r₂ hlt h₁ h₂
  have hle : y₁ ≤ y₂ := le_of_lt hlt
  have hnle : ¬ y₂ ≤ y₁ := not_le_of_lt hlt
  have hs₁ : List.insertionSort (· ≤ ·) [y₁, y₂] = [y₁, y₂] := by
    simp [List.insertionSort, List.orderedInsert, hle]
  have hs₂ : List.insertionSort (· ≤ ·) [y₂, y₁] = [y₁, y₂] := by
    simp [List.insertionSort, List.orderedInsert, hnle]
  constructor
  · simp [fetch_enr_multi, yearResults, hs₁, okYearsOf, failedYearsOf,
      recordsOf, h₁, h₂, hle, hnle]
  · simp [fetch_enr_multi, yearResults, hs₁, hs₂, hle, hnle]

/-- Witness for C4: the provider `pDemo` publishes 2020 and 2021; requesting
them in either order gives the ascending concatenation. -/
theorem claim_C4_witness :
    fetch_enr_multi pDemo [2020, 2021] .total =
      .ok { records := [sampleRec 2020 5] ++ [sampleRec 2021 7]
            okYears := [2020, 2021]
            failedYears := [] } ∧
    fetch_enr_multi pDemo [2021, 2020] .total =
      fetch_enr_multi pDemo [2020, 2021] .total :=
  claim_C4_multi_ascending_order_free pDemo .total 2020 2021
    [sampleRec 2020 5] [sampleRec 2021 7] (by decide) rfl rfl

/-- C5: partial-failure semantics of the aggregator — a multi-year request in
which at least one year succeeds and at least one fails raises no exception and
returns the successful years' records plus a metadata entry for each failed
year; a request in which every year fails raises `NoDataError`. -/
theorem claim_C5_partial_failure_semantics :
    ∀ (p : Provider) (v : Variant) (years : List Nat),
      (∀ y₁ r₁ y₂ e₂, y₁ ∈ years → fetch_enr p y₁ v = .ok r₁ →
        y₂ ∈ years → fetch_enr p y₂ v = .error e₂ →
        ∃ res, fetch_enr_multi p years v = .ok res ∧
          (∀ y recs, y ∈ years → fetch_enr p y v = .ok recs →
            y ∈ res.okYears ∧ ∀ e ∈ recs, e ∈ res.records) ∧
          (∀ y err, y ∈ years → fetch_enr p y v = .error err →
            (y, err) ∈ res.failedYears)) ∧
      ((∀ y ∈ years, ∃ err, fetch_enr p y v = .error err) → years ≠ [] →
        fetch_enr_multi p years v = .error .NoDataError) := by
  intro p v years
  have hmem : ∀ y, y ∈ years → (y, fetch_enr p y v) ∈ yearResults p years v := by
    intro y hy
    simp only [yearResults, List.mem_map, List.mem_insertionSort]
    exact ⟨y, hy, rfl⟩
  have hok : ∀ y recs, y ∈ years → fetch_enr p y v = .ok recs →
      y ∈ okYearsOf (yearResults p years v) := by
    intro y recs hy h
    simp only [okYearsOf, List.mem_filterMap]
    refine ⟨(y, fetch_enr p y v), hmem y hy, ?_⟩
    rw [h]
  have hrec : ∀ y recs, y ∈ years → fetch_enr p y v = .ok recs →
      ∀ e ∈ recs, e ∈ recordsOf (yearResults p years v) := by
    intro y recs hy h e he
    simp only [recordsOf, List.mem_flatten]
    refine ⟨recs, ?_, he⟩
    simp only [List.mem_filterMap]
    refine ⟨(y, fetch_enr p y v), hmem y hy, ?_⟩
    rw [h]
  have hfail : ∀ y err, y ∈ years → fetch_enr p y v = .error err →
      (y, err) ∈ failedYearsOf (yearResults p years v) := by
    intro y err hy h
    simp only [failedYearsOf, List.mem_filterMap]
    refine ⟨(y, fetch_enr p y v), hmem y hy, ?_⟩
    rw [h]
  constructor
  · intro y₁ r₁ y₂ e₂ hy₁ h₁ hy₂ h₂
    have hne : okYearsOf (yearResults p years v) ≠ [] :=
      List.ne_nil_of_mem (hok y₁ r₁ hy₁ h₁)
    have hie : (okYearsOf (yearResults p years v)).isEmpty = false := by
      cases hOk : okYearsOf (yearResults p years v) with
      | nil => exact absurd hOk hne
      | cons a t => rfl
    refine ⟨⟨recordsOf (yearResults p years v),
             okYearsOf (yearResults p years v),
             failedYearsOf (yearResults p years v)⟩, ?_, ?_, ?_⟩
    · simp [fetch_enr_multi, hie]
    · intro y recs hy h
      exact ⟨hok y recs hy h, hrec y recs hy h⟩
    · intro y err hy h
      exact hfail y err hy h
  · intro hall hne
    have hOk : okYearsOf (yearResults p years v) = [] := by
      apply List.filterMap_eq_nil_iff.mpr
      intro x hx
      simp only [yearResults, List.mem_map, List.mem_insertionSort] at hx
      obtain ⟨y, hy, rfl⟩ := hx
      obtain ⟨err, herr⟩ := hall y hy
      rw [herr]
    have hyne : years.isEmpty = false := by
      cases years with
      | nil => exact absurd rfl hne
      | cons a t => rfl
    simp [fetch_enr_multi, hOk, hyne]

/-- Witness for C5: against `pMixed`, the request [2020, 2021] mixes one
success with one failure and returns a partial result, while the request
[2021] fails wholly and raises `NoDataError`. -/
theorem claim_C5_witness :
    (∃ res, fetch_enr_multi pMixed [2020, 2021] .total = .ok res ∧
      (∀ y recs, y ∈ [2020, 2021] → fetch_enr pMixed y .total = .ok recs →
        y ∈ res.okYears ∧ ∀ e ∈ recs, e ∈ res.records) ∧
      (∀ y err, y ∈ [2020, 2021] → fetch_enr pMixed y .total = .error err →
        (y, err) ∈ res.failedYears)) ∧
    fetch_enr_multi pMixed [2021] .total = .error .NoDataError := by
  constructor
  · exact (claim_C5_partial_failure_semantics pMixed .total [2020, 2021]).1
      2020 [sampleRec 2020 5] 2021 .DataUnavailableError
      (by decide) rfl (by decide) rfl
  · refine (claim_C5_partial_failure_semantics pMixed .total [2021]).2 ?_ (by decide)
    intro y hy
    have hy' : y = 2021 := by simpa using hy
    subst hy'
    exact ⟨.DataUnavailableError, rfl⟩

/-- Pivoting one well-formed raw row yields records with non-negative counts,
the row's identity fields, and categories drawn without repetition from the
row's columns. -/
theorem pivotCells_ok_spec (yr : Nat) (s : String) (g : Nat) :
    ∀ (cells : List (String × Option Int)) (l : List EnrollmentRecord),
      pivotCells yr s g cells = .ok l →
      (∀ e ∈ l, 0 ≤ e.count ∧ e.year = yr ∧ e.school = s ∧ e.grade = g ∧
        e.category ∈ cells.map Prod.fst) ∧
      ((cells.map Prod.fst).Nodup → (l.map EnrollmentRecord.category).Nodup) := by
  intro cells
  induction cells with
  | nil =>
    intro l h
    obtain rfl : ([] : List EnrollmentRecord) = l := by
      simpa [pivotCells] using h
    exact ⟨by simp, by simp⟩
  | cons cell rest ih =>
    intro l h
    obtain ⟨cat, cnt⟩ := cell
    cases cnt with
    | none =>
      simp only [pivotCells] at h
      obtain ⟨hA, hB⟩ := ih l h
      constructor
      · intro e he
        obtain ⟨hc, hy, hs, hg, hcat⟩ := hA e he
        exact ⟨hc, hy, hs, hg, by simp [List.mem_cons_of_mem, hcat]⟩
      · intro hnd
        simp only [List.map_cons, List.nodup_cons] at hnd
        exact hB hnd.2
    | some c =>
      simp only [pivotCells] at h
      by_cases hc : c < 0
      · rw [if_pos hc] at h
        exact absurd h (by simp)
      · rw [if_neg hc] at h
        cases hp : pivotCells yr s g rest with
        | error e => rw [hp] at h; exact absurd h (by simp)
        | ok recs =>
          rw [hp] at h
          obtain rfl : (⟨yr, s, g, cat, c⟩ : EnrollmentRecord) :: recs = l := by
            simpa using h
          obtain ⟨hA, hB⟩ := ih recs hp
          constructor
          · intro e he
            rcases List.mem_cons.mp he with rfl | he'
            · exact ⟨Int.not_lt.mp hc, rfl, rfl, rfl, by simp⟩
            · obtain ⟨hc', hy, hs, hg, hcat⟩ := hA e he'
              exact ⟨hc', hy, hs, hg, by simp [List.mem_cons_of_mem, hcat]⟩
          · intro hnd
            simp only [List.map_cons, List.nodup_cons] at hnd ⊢
            refine ⟨?_, hB hnd.2⟩
            intro hmem
            obtain ⟨e, he, heq⟩ := List.mem_map.mp hmem
            have : e.category ∈ rest.map Prod.fst := (hA e he).2.2.2.2
            rw [heq] at this
            exact hnd.1 this

/-- Tidying well-formed raw rows yields records with non-negative counts and
pairwise distinct (year, school, grade, category) keys. -/
theorem tidyRows_ok_spec :
    ∀ (rows : List RawRow) (l : List EnrollmentRecord),
      tidyRows rows = .ok l →
      (∀ e ∈ l, 0 ≤ e.count ∧
        (e.year, e.school, e.grade) ∈ rows.map rowTriple) ∧
      (RowsWF rows → (l.map recKey).Nodup) := by
  intro rows
  induction rows with
  | nil =>
    intro l h
    obtain rfl : ([] : List EnrollmentRecord) = l := by
      simpa [tidyRows] using h
    exact ⟨by simp, by simp⟩
  | cons r rest ih =>
    intro l h
    simp only [tidyRows] at h
    cases hp : pivotCells r.year r.school r.grade r.cells with
    | error e => rw [hp] at h; exact absurd h (by simp)
    | ok a =>
      rw [hp] at h
      cases ht : tidyRows rest with
      | error e => rw [ht] at h; exact absurd h (by simp)
      | ok b =>
        rw [ht] at h
        obtain rfl : a ++ b = l := by simpa using h
        obtain ⟨pA, pB⟩ := pivotCells_ok_spec r.year r.school r.grade r.cells a hp
        obtain ⟨tA, tB⟩ := ih b ht
        constructor
        · intro e he
          rcases List.mem_append.mp he with hea | heb
          · obtain ⟨hc, hy, hs, hg, _⟩ := pA e hea
            refine ⟨hc, ?_⟩
            simp [rowTriple, hy, hs, hg]
          · obtain ⟨hc, hmem⟩ := tA e heb
            exact ⟨hc, by simp [hmem]⟩
        · rintro ⟨hnd, hcells⟩
          simp only [List.map_cons, List.nodup_cons] at hnd
          obtain ⟨hr_not, hrest_nd⟩ := hnd
          have hbnd : (b.map recKey).Nodup :=
            tB ⟨hrest_nd, fun r' hr' => hcells r' (List.mem_cons_of_mem _ hr')⟩
          have hand : (a.map recKey).Nodup := by
            have hcat_nd : (a.map EnrollmentRecord.category).Nodup :=
              pB (hcells r (List.mem_cons_self _ _))
            have hmapeq : a.map recKey =
                (a.map EnrollmentRecord.category).map
                  (fun c => (r.year, r.school, r.grade, c)) := by
              rw [List.map_map]
              apply List.map_congr_left
              intro e hea
              obtain ⟨_, hy, hs, hg, _⟩ := pA e hea
              simp [recKey, Function.comp_def, hy, hs, hg]
            rw [hmapeq]
            exact hcat_nd.map (fun c₁ c₂ hcc => by simpa using hcc)
          rw [List.map_append]
          refine hand.append hbnd ?_
          intro k hka hkb
          obtain ⟨e₁, he₁, rfl⟩ := List.mem_map.mp hka
          obtain ⟨e₂, he₂, hkeq⟩ := List.mem_map.mp hkb
          obtain ⟨_, hy₁, hs₁, hg₁, _⟩ := pA e₁ he₁
          obtain ⟨_, hmem₂⟩ := tA e₂ he₂
          have htr : (e₁.year, e₁.school, e₁.grade) =
              (e₂.year, e₂.school, e₂.grade) := by
            have := hkeq
            simp only [recKey, Prod.mk.injEq] at this
            simp [this.1, this.2.1, this.2.2.1]
          apply hr_not
          have : rowTriple r = (e₂.year, e₂.school, e₂.grade) := by
            rw [← htr]
            simp [rowTriple, hy₁, hs₁, hg₁]
          rw [this]
          exact hmem₂

/-- C9: a successful single-year fetch from well-formed provider data is a
non-empty record sequence with every count ≥ 0 and (year, school, grade,
category) a unique key within the result set. -/
theorem claim_C9_single_year_invariants :
    ∀ (p : Provider) (y : Nat) (v : Variant) (rows : List RawRow)
      (recs : List EnrollmentRecord),
      p.table y v = some rows → RowsWF rows →
      fetch_enr p y v = .ok recs →
      recs ≠ [] ∧ (∀ e ∈ recs, 0 ≤ e.count) ∧ (recs.map recKey).Nodup := by
  intro p y v rows recs htab hwf h
  unfold fetch_enr at h
  cases hr : fetch_raw p y v with
  | error e => rw [hr] at h; exact absurd h (by simp)
  | ok rows' =>
    rw [hr] at h
    have hrows : rows' = rows := by
      unfold fetch_raw at hr
      by_cases hy : y ∈ p.years
      · rw [if_pos hy, htab] at hr
        have hr' : (Except.ok rows : Except FetchError (List RawRow)) = .ok rows' := hr
        exact (Except.ok.inj hr').symm
      · rw [if_neg hy] at hr
        exact absurd hr (by simp)
    rw [hrows] at h
    replace h :
        (match tidy_enr rows with
          | Except.error e => Except.error e
          | Except.ok r₀ =>
            if r₀.isEmpty = true then Except.error FetchError.DataUnavailableError
            else Except.ok r₀) = Except.ok recs := h
    cases ht : tidyRows rows with
    | error e =>
      have htv : tidy_enr rows = .error e := by simp [tidy_enr, ht]
      rw [htv] at h
      exact absurd h (by simp)
    | ok l =>
      have htv : tidy_enr rows = .ok (l.insertionSort keyLE) := by
        simp [tidy_enr, ht]
      rw [htv] at h
      replace h :
          (if (l.insertionSort keyLE).isEmpty = true
            then (Except.error FetchError.DataUnavailableError :
              Except FetchError (List EnrollmentRecord))
            else Except.ok (l.insertionSort keyLE)) = Except.ok recs := h
      by_cases hie : (l.insertionSort keyLE).isEmpty = true
      · rw [if_pos hie] at h
        exact absurd h (by simp)
      · rw [if_neg hie] at h
        obtain rfl : l.insertionSort keyLE = recs := by simpa using h
        obtain ⟨hA, hB⟩ := tidyRows_ok_spec rows l ht
        refine ⟨?_, ?_, ?_⟩
        · intro hn
          exact hie (by simp [hn])
        · intro e he
          have hel : e ∈ l := by simpa using he
          exact (hA e hel).1
        · exact (((List.perm_insertionSort keyLE l).map recKey).nodup_iff).mpr
            (hB hwf)

/-- Witness for C9 at the concrete provider `pMixed` and year 2020. -/
theorem claim_C9_witness :
    [sampleRec 2020 5] ≠ [] ∧ (∀ e ∈ [sampleRec 2020 5], 0 ≤ e.count) ∧
    ([sampleRec 2020 5].map recKey).Nodup :=
  claim_C9_single_year_invariants pMixed 2020 .total [sampleRow 2020 5]
    [sampleRec 2020 5] rfl (by decide) rfl

end VtSchoolData
